import Mathlib

/-!
Shallow embedding of the data-acquisition TCP server (`src/main.cpp`).

The server keeps one append-only binary log file per sensor id, a shared
registry `logs_ : unordered_map<string, ofstream>` guarded by a mutex, and a
per-connection handler `Session::process_message` that dispatches `LOG|...`
and `GET|...` command lines.

Modelling conventions:
* machine integers are `Int`/`Nat` (C++ `/` on nonnegative operands agrees
  with `Int.tdiv`); `std::time_t` is `Int`;
* `double` values are modelled as exact rationals (a small normalized
  fraction type `Q`); the decimal literals exercised by the claims (`23.5`,
  `1.5`, ...) are exactly representable as IEEE-754 doubles, so `std::stod`
  introduces no rounding on them;
* the file system is explicit state: `<id>.log` exists iff it has an entry in
  `ServerState.files`; an `Env` oracle says which `ofstream` opens succeed;
* bytes are `Nat` (inputs are ASCII, one byte per `Char`);
* `mktime`/`localtime` (local time) are modelled as the UTC civil-calendar
  conversions (the standard `days_from_civil`/`civil_from_days` algorithms);
  the round trip `localtime ∘ mktime = id` used by the claims holds in both.
-/

namespace DAS

/-! ### Characters, digits, and list helpers -/

/-- One byte of the fixed-width record, as a natural number. -/
abbrev Byte := Nat

def isDigitC (c : Char) : Bool := 48 ≤ c.toNat && c.toNat ≤ 57

/-- Whitespace per `isspace` in the "C" locale, skipped by `std::stoi`/`std::stod`. -/
def isSpaceC (c : Char) : Bool :=
  c = ' ' || c = '\t' || c = '\n' || c = '\x0b' || c = '\x0c' || c = '\r'

/-- Value of a list of decimal digit characters, most significant first. -/
def natOfDigits (ds : List Char) : Nat :=
  ds.foldl (fun acc c => 10 * acc + (c.toNat - 48)) 0

/-! ### Exact rationals

`double` values are modelled as exact rationals.  (Mathlib `ℚ` arithmetic is
irreducible to `decide`, so a small self-contained normalized fraction type
is used instead; every operation below is plain structural arithmetic.) -/

structure Q where
  num : Int
  den : Nat
  deriving Repr, DecidableEq

/-- Normalized fraction `n / d` for `d ≠ 0`: divide both by their gcd. -/
def Q.norm (n : Int) (d : Nat) : Q :=
  let g := Nat.gcd n.natAbs d
  if g = 0 then ⟨0, 1⟩ else ⟨Int.tdiv n (g : Int), d / g⟩

/-- Comparison by cross-multiplication (denominators are positive). -/
def Q.leq (a b : Q) : Bool := decide (a.num * (b.den : Int) ≤ b.num * (a.den : Int))

def Q.abs (a : Q) : Q := ⟨(a.num.natAbs : Int), a.den⟩

/-- Integer power of ten as a rational. -/
def Q.pow10 (k : Int) : Q :=
  if 0 ≤ k then ⟨10 ^ k.toNat, 1⟩ else ⟨1, 10 ^ (-k).toNat⟩

/-- Floor of `a * 10^k + 1/2`, in pure integer arithmetic:
`⌊x/y + 1/2⌋ = ⌊(2x + y) / (2y)⌋`. -/
def Q.roundAt (a : Q) (k : Int) : Int :=
  let x : Int := if 0 ≤ k then a.num * 10 ^ k.toNat else a.num
  let y : Int := if 0 ≤ k then (a.den : Int) else (a.den : Int) * 10 ^ (-k).toNat
  Int.fdiv (2 * x + y) (2 * y)

/-- Greedily take at most `n` characters satisfying `p` from the front. -/
def takeUpTo (n : Nat) (p : Char → Bool) : List Char → List Char × List Char
  | [] => ([], [])
  | c :: cs =>
    match n with
    | 0 => ([], c :: cs)
    | m + 1 =>
      if p c then
        let (tk, rest) := takeUpTo m p cs
        (c :: tk, rest)
      else ([], c :: cs)

/-- Prefix test modelling `message.rfind("PFX", 0) == 0`. -/
def strStarts (message pfx : String) : Bool := pfx.data.isPrefixOf message.data

/-! ### `Session::split_message`

`std::getline(stream, part, '|')` in a loop: every `'|'` ends a field; the
final `getline` fails (extracting nothing) when the message is empty or ends
in `'|'`, so an empty message yields no fields and a trailing delimiter does
not yield a final empty field. -/

def splitFields : List Char → List (List Char)
  | [] => [[]]
  | c :: cs =>
    if c = '|' then [] :: splitFields cs
    else
      match splitFields cs with
      | [] => [[c]]
      | f :: fs => (c :: f) :: fs

def split_message (message : String) : List String :=
  if message = "" then []
  else
    let fields := splitFields message.data
    let fields := if message.data.getLast? = some '|' then fields.dropLast else fields
    fields.map String.mk

/-! ### `std::stoi` and `std::stod`

Both skip leading whitespace, accept an optional sign, parse the longest
valid numeric prefix and ignore the rest of the string; they throw
`invalid_argument` (modelled as `none`) when no digits are found, and `stoi`
throws `out_of_range` (also `none`: the handler reacts identically) outside
the `int` range. -/

def stoi (s : String) : Option Int :=
  let cs := s.data.dropWhile isSpaceC
  let (sgn, cs) : Int × List Char :=
    match cs with
    | '-' :: t => (-1, t)
    | '+' :: t => (1, t)
    | t => (1, t)
  let ds := cs.takeWhile isDigitC
  if ds = [] then none
  else
    let v : Int := sgn * (natOfDigits ds : Int)
    if v < -(2 ^ 31) || 2 ^ 31 - 1 < v then none else some v

/-- Exponent part of a `double` literal: `e`/`E`, optional sign, digits; if
the digits are missing the exponent part is not consumed and contributes 0. -/
def stodExp (cs : List Char) : Int :=
  match cs with
  | e :: t =>
    if e = 'e' || e = 'E' then
      let (esgn, t) : Int × List Char :=
        match t with
        | '-' :: u => (-1, u)
        | '+' :: u => (1, u)
        | u => (1, u)
      let eds := t.takeWhile isDigitC
      if eds = [] then 0 else esgn * (natOfDigits eds : Nat)
    else 0
  | [] => 0

def stod (s : String) : Option Q :=
  let cs := s.data.dropWhile isSpaceC
  let (sgn, cs) : Int × List Char :=
    match cs with
    | '-' :: t => (-1, t)
    | '+' :: t => (1, t)
    | t => (1, t)
  let ip := cs.takeWhile isDigitC
  let cs1 := cs.drop ip.length
  let (fp, cs2) : List Char × List Char :=
    match cs1 with
    | '.' :: t => (t.takeWhile isDigitC, t.drop (t.takeWhile isDigitC).length)
    | t => ([], t)
  if ip = [] && fp = [] then none
  else
    -- sgn * (ip + fp/10^|fp|) * 10^exp, assembled as one normalized fraction
    let mant : Int := sgn * ((natOfDigits ip * 10 ^ fp.length + natOfDigits fp : Nat) : Int)
    let e := stodExp cs2
    if 0 ≤ e then some (Q.norm (mant * 10 ^ e.toNat) (10 ^ fp.length))
    else some (Q.norm mant (10 ^ fp.length * 10 ^ (-e).toNat))

/-! ### `Session::string_to_time_t` and `Session::time_t_to_string`

`string_to_time_t` parses `"%Y-%m-%dT%H:%M:%S"` with `std::get_time` and
returns `(time_t)(-1)` when parsing fails or leaves unconsumed characters;
on success it returns `mktime(&tm)`.  `time_t_to_string` renders
`localtime(&t)` with `std::put_time("%Y-%m-%dT%H:%M:%S")`. -/

def expectChar (c : Char) : List Char → Option (List Char)
  | [] => none
  | d :: cs => if d = c then some cs else none

/-- Parse one numeric field: `%Y` reads up to four digits, the others up to two. -/
def parseField (maxD : Nat) (cs : List Char) : Option (Nat × List Char) :=
  let (ds, rest) := takeUpTo maxD isDigitC cs
  if ds = [] then none else some (natOfDigits ds, rest)

def get_time_parse (s : String) :
    Option (Int × Int × Int × Int × Int × Int) := do
  let (y, cs) ← parseField 4 s.data
  let cs ← expectChar '-' cs
  let (mo, cs) ← parseField 2 cs
  let cs ← expectChar '-' cs
  let (d, cs) ← parseField 2 cs
  let cs ← expectChar 'T' cs
  let (h, cs) ← parseField 2 cs
  let cs ← expectChar ':' cs
  let (mi, cs) ← parseField 2 cs
  let cs ← expectChar ':' cs
  let (se, cs) ← parseField 2 cs
  if cs = [] then some (y, mo, d, h, mi, se) else none

/-- Days since 1970-01-01 of the civil date `(y, m, d)` (the standard
`days_from_civil` algorithm used by C library implementations). -/
def days_from_civil (y m d : Int) : Int :=
  let y := y - (if m ≤ 2 then 1 else 0)
  let era := Int.fdiv y 400
  let yoe := y - era * 400
  let mp := (m + 9) % 12
  let doy := Int.fdiv (153 * mp + 2) 5 + d - 1
  let doe := yoe * 365 + Int.fdiv yoe 4 - Int.fdiv yoe 100 + doy
  era * 146097 + doe - 719468

/-- Inverse of `days_from_civil` (the standard `civil_from_days` algorithm). -/
def civil_from_days (z0 : Int) : Int × Int × Int :=
  let z := z0 + 719468
  let era := Int.fdiv z 146097
  let doe := z - era * 146097
  let yoe :=
    Int.fdiv (doe - Int.fdiv doe 1460 + Int.fdiv doe 36524 - Int.fdiv doe 146096) 365
  let y := yoe + era * 400
  let doy := doe - (365 * yoe + Int.fdiv yoe 4 - Int.fdiv yoe 100)
  let mp := Int.fdiv (5 * doy + 2) 153
  let d := doy - Int.fdiv (153 * mp + 2) 5 + 1
  let m := mp + (if mp < 10 then 3 else -9)
  (y + (if m ≤ 2 then 1 else 0), m, d)

/-- Model of `mktime` on the parsed `tm`, with local time modelled as UTC. -/
def mktime_model (y mo d h mi se : Int) : Int :=
  days_from_civil y mo d * 86400 + h * 3600 + mi * 60 + se

def string_to_time_t (s : String) : Int :=
  match get_time_parse s with
  | none => -1
  | some (y, mo, d, h, mi, se) => mktime_model y mo d h mi se

def pad2 (n : Int) : String :=
  if n < 10 then "0" ++ toString n else toString n

def time_t_to_string (t : Int) : String :=
  let days := Int.fdiv t 86400
  let secs := t - days * 86400
  let (y, mo, d) := civil_from_days days
  let h := Int.fdiv secs 3600
  let mi := Int.fdiv (secs % 3600) 60
  let se := secs % 60
  toString y ++ "-" ++ pad2 mo ++ "-" ++ pad2 d ++ "T" ++
    pad2 h ++ ":" ++ pad2 mi ++ ":" ++ pad2 se

/-! ### The record codec (`LogRecord`, lines 13–20 and 62–64)

`LogRecord` is `#pragma pack(1)`: a 32-byte id field, an 8-byte `time_t`, an
8-byte `double` — 48 bytes per record.  We keep the id field at byte level
(the claims are about its exact bytes) and the timestamp/value fields at
value level. -/

structure LogRecord where
  sensor_id : List Byte
  timestamp : Int
  value : Q
  deriving Repr, DecidableEq

/-- Lines 63–64:
`strncpy(record.sensor_id, sensor_id.c_str(), 31)` copies the first
`min(len, 31)` bytes and zero-fills the remainder of the 31 bytes when the
source is shorter.  The next statement assigns `record.sensor_id[31]` the C++
multicharacter literal consisting of a backslash followed by the digit zero
(the source file really contains two backslash characters there, so this is
not the NUL escape); under gcc/clang its `int` value is 0x5C30, which
truncates to the byte 0x30 = 48, i.e. the character `'0'`. -/
def encode_sensor_id (s : String) : List Byte :=
  let bytes := s.data.map Char.toNat
  (bytes.take 31 ++ List.replicate (31 - bytes.length) 0) ++ [48]

/-- Codec decode (spec §4.1): the identifier is read from the 32-byte field
up to the first zero byte or the end of the field. -/
def decode_sensor_id (field : List Byte) : List Byte :=
  field.takeWhile (fun b => b ≠ 0)

/-! ### Server state

`logs_ : unordered_map<string, ofstream>` is the registry: a key is present
iff `operator[]` has been used for that sensor id, and the mapped `ofstream`
either opened successfully (`true`) or not (`false`).  `files` is the disk:
`<id>.log` exists iff it has an entry, holding its decoded records (every
write appends exactly 48 bytes, so record granularity is faithful). -/

structure ServerState where
  registry : List (String × Bool)
  files : List (String × List LogRecord)
  deriving Repr, DecidableEq

/-- Which `ofstream::open(name, binary|app)` calls succeed (OS oracle). -/
structure Env where
  canOpenWrite : String → Bool

def alookup {α : Type} : List (String × α) → String → Option α
  | [], _ => none
  | (k, v) :: t, key => if k = key then some v else alookup t key

/-- Append one record to `<id>.log` (the file is created on open). -/
def appendRecord : List (String × List LogRecord) → String → LogRecord →
    List (String × List LogRecord)
  | [], id, r => [(id, [r])]
  | (k, rs) :: t, id, r =>
    if k = id then (k, rs ++ [r]) :: t else (k, rs) :: appendRecord t id r

/-- In append mode, `ofstream::open` creates the file when it is missing and
keeps its contents when it exists. -/
def ensureFile (fs : List (String × List LogRecord)) (id : String) :
    List (String × List LogRecord) :=
  if alookup fs id = none then fs ++ [(id, [])] else fs

/-! ### The `GET` tail read (lines 142–157) -/

/-- Lines 142–157: `file_size = tellg()` after seeking to the end;
`total_records = file_size / sizeof(LogRecord)` (C++ `/` truncates toward
zero, `Int.tdiv`); `num_records = min(num_records, total_records)`;
`seekg(-num_records * 48, end)` positions at byte `file_size - 48*n`
(the `int`→`size_t`→`streamoff` conversions wrap modulo 2^64, so the
product is the mathematical one); the loop then reads `n` consecutive
48-byte records starting at record index `total_records - n`. -/
def tail_read (file : List LogRecord) (count : Int) : Int × List LogRecord :=
  let fileSize : Int := (file.length : Int) * 48
  let total : Int := Int.tdiv fileSize 48
  let n : Int := min count total
  let recs := (List.range n.toNat).filterMap
    fun i => file.get? ((total - n).toNat + i)
  (n, recs)

/-! ### Response rendering (lines 149–159)

`response << num_records;` then for each record
`response << ";" << time_t_to_string(ts) << "|" << record.value;` and finally
a genuine CRLF.  `operator<<` on a `double` uses the default format: 6
significant digits, fixed notation for decimal exponents in `[-4, 5]`,
scientific otherwise, trailing zeros removed. -/

/-- Decimal digit count of `n ≥ 1` (fuel-bounded structural recursion). -/
def numDigitsAux : Nat → Nat → Nat
  | 0, _ => 0
  | fuel + 1, n => if n < 10 then 1 else numDigitsAux fuel (n / 10) + 1

def numDigits (n : Nat) : Nat := numDigitsAux n n

/-- Floor of `log10 a` for a positive rational. -/
def floorLog10 (a : Q) : Int :=
  let g : Int := (numDigits a.num.natAbs : Int) - (numDigits a.den : Int)
  if Q.leq (Q.pow10 g) a then g else g - 1

/-- Strip trailing `'0'` characters. -/
def stripZeros (ds : List Char) : List Char :=
  (ds.reverse.dropWhile (fun c => c = '0')).reverse

/-- Rendering of `std::ostream << double` with default flags (`%g`, precision
6).  Ties at the 6-significant-digit rounding are resolved upward here; no
input exercised by the claims is a tie. -/
def format_double (v : Q) : String :=
  if v.num = 0 then "0"
  else
    let sgn := if v.num < 0 then "-" else ""
    let a := Q.abs v
    let e := floorLog10 a
    let m : Int := Q.roundAt a (5 - e)
    let (m, e) : Int × Int := if m = 1000000 then (100000, e + 1) else (m, e)
    let ds := (toString m).data
    if -4 ≤ e && e < 6 then
      if 0 ≤ e then
        let ipart := ds.take (e.toNat + 1)
        let fpart := stripZeros (ds.drop (e.toNat + 1))
        sgn ++ String.mk ipart ++
          (if fpart = [] then "" else "." ++ String.mk fpart)
      else
        let fpart := stripZeros ds
        sgn ++ "0." ++ String.mk (List.replicate (-e - 1).toNat '0') ++
          String.mk fpart
    else
      let rest := stripZeros (ds.drop 1)
      sgn ++ String.mk (ds.take 1) ++
        (if rest = [] then "" else "." ++ String.mk rest) ++
        "e" ++ (if e < 0 then "-" else "+") ++ pad2 |e|

/-- One `;<ts>|<value>` segment of a successful `GET` response. -/
def render_record (r : LogRecord) : String :=
  ";" ++ time_t_to_string r.timestamp ++ "|" ++ format_double r.value

/-- The whole successful `GET` response: `n`, the segments, a real CRLF. -/
def get_response (n : Int) (recs : List LogRecord) : String :=
  toString n ++ String.join (recs.map render_record) ++ "\r\n"

/-! ### `Session::process_message` (lines 51–169)

Returns the new server state and the list of strings written to the socket
(`boost::asio::write` calls).  NB the error strings for
`INVALID_NUM_RECORDS` and `CANNOT_READ_LOG_FILE` in the source contain the
four literal characters backslash-`r`-backslash-`n`, not CRLF; the
`INVALID_SENSOR_ID` string and the success path use a genuine CRLF. -/

def logBranch (env : Env) (st : ServerState) (parts : List String) :
    ServerState × List String :=
  let sensor_id := parts.getD 1 ""
  let timestamp_str := parts.getD 2 ""
  let value_str := parts.getD 3 ""
  -- lines 62–65: the record is built before the value parse
  let idField := encode_sensor_id sensor_id
  let ts := string_to_time_t timestamp_str
  match stod value_str with
  | none => (st, [])     -- std::stod threw: caught, logged to stderr only
  | some v =>
    let record : LogRecord := ⟨idField, ts, v⟩
    match alookup st.registry sensor_id with
    | some isOpen =>     -- lines 71, 76: entry present, no re-open
      if isOpen then
        ({ st with files := appendRecord st.files sensor_id record }, [])
      else (st, [])      -- line 84: stderr only, reading dropped
    | none =>            -- line 73: operator[] inserts, then open
      let ok := env.canOpenWrite (sensor_id ++ ".log")
      let reg := st.registry ++ [(sensor_id, ok)]
      if ok then
        let fs := ensureFile st.files sensor_id
        ({ registry := reg, files := appendRecord fs sensor_id record }, [])
      else ({ registry := reg, files := st.files }, [])

def getBranch (st : ServerState) (parts : List String) :
    ServerState × List String :=
  let sensor_id := parts.getD 1 ""
  match stoi (parts.getD 2 "") with
  | none => (st, ["ERROR|INVALID_NUM_RECORDS\\r\\n"])
  | some num_records =>
    if (alookup st.registry sensor_id).isSome then
      match alookup st.files sensor_id with
      | none => (st, ["ERROR|CANNOT_READ_LOG_FILE\\r\\n"])
      | some file =>
        let (n, recs) := tail_read file num_records
        (st, [get_response n recs])
    else (st, ["ERROR|INVALID_SENSOR_ID\r\n"])

def process_message (env : Env) (st : ServerState) (message : String) :
    ServerState × List String :=
  if strStarts message "LOG|" then
    let parts := split_message message
    if parts.length = 4 then logBranch env st parts else (st, [])
  else if strStarts message "GET|" then
    let parts := split_message message
    if parts.length = 3 then getBranch st parts else (st, [])
  else (st, [])

/-- The framing layer (`async_read_until "\r\n"` followed by
`std::getline(is, message)`) delivers the line to `process_message` with its
trailing carriage return still attached: `getline` strips only the `'\n'`. -/
def handle_wire_line (env : Env) (st : ServerState) (line : String) :
    ServerState × List String :=
  process_message env st (line ++ "\r")

/-! ### Locking discipline (lines 70–86 and 125–160)

A per-command trace of micro-steps, with the `std::lock_guard` acquire and
release placed exactly where the source has them.  `logs_mutex_` is the
single process-wide mutex shared by all sessions. -/

inductive Step where
  | lockAcquire | lockRelease
  | registryAccess        -- find / count / operator[] on the shared logs_ map
  | fileOpenWrite | fileAppendWrite | fileFlush
  | fileOpenRead | fileSizeQuery | fileSeek | fileRecordRead
  | socketWrite
  deriving Repr, DecidableEq

/-- Micro-steps of a `LOG` append for a new sensor id whose file opens
(lines 70–86): lock_guard ctor (70), `find` (71), `operator[]` and `open`
(73), `operator[]` and `is_open` (76), `operator[]` and `write` (78),
`operator[]` and `flush` (79), unlock when the guard leaves scope (86). -/
def log_trace_new_sensor : List Step :=
  [Step.lockAcquire, Step.registryAccess, Step.registryAccess,
   Step.fileOpenWrite, Step.registryAccess, Step.registryAccess,
   Step.fileAppendWrite, Step.registryAccess, Step.fileFlush,
   Step.lockRelease]

/-- Micro-steps of a `GET` for an existing sensor reading `n` records
(lines 125–160): lock_guard ctor (127), `count` (128), unlock at the end of
the inner block (129), `ifstream` open (133), size computation via
`seekg`/`tellg` (142–144), `seekg` to the window start (147), `n` record
reads (155), the response write (160). -/
def get_trace_existing (n : Nat) : List Step :=
  [Step.lockAcquire, Step.registryAccess, Step.lockRelease,
   Step.fileOpenRead, Step.fileSizeQuery, Step.fileSeek]
  ++ List.replicate n Step.fileRecordRead
  ++ [Step.socketWrite]

/-- The steps the claimed locking discipline requires to be under the lock:
registry lookups/inserts, file appends, and tail-read file accesses. -/
def isGuarded : Step → Bool
  | Step.registryAccess | Step.fileOpenWrite | Step.fileAppendWrite
  | Step.fileFlush | Step.fileOpenRead | Step.fileSizeQuery
  | Step.fileSeek | Step.fileRecordRead => true
  | _ => false

/-- Annotate each step with whether the mutex is held while it executes
(`d` is the current hold depth; 0 or 1 for this single mutex). -/
def annotateLock : Nat → List Step → List (Step × Bool)
  | _, [] => []
  | d, Step.lockAcquire :: t => (Step.lockAcquire, true) :: annotateLock (d + 1) t
  | d, Step.lockRelease :: t => (Step.lockRelease, true) :: annotateLock (d - 1) t
  | d, s :: t => (s, decide (0 < d)) :: annotateLock d t

/-- The guarded accesses of a trace that execute without holding the mutex. -/
def unguarded_accesses (tr : List Step) : List Step :=
  ((annotateLock 0 tr).filter fun p => isGuarded p.1 && !p.2).map Prod.fst

/-! ### Concrete fixtures shared by the claim theorems -/

/-- Environment in which every `ofstream::open` succeeds. -/
def envAll : Env := ⟨fun _ => true⟩

/-- Environment in which every `ofstream::open` fails. -/
def envNone : Env := ⟨fun _ => false⟩

/-- Fresh server: empty registry, no log files. -/
def emptyState : ServerState := ⟨[], []⟩

def recA : LogRecord := ⟨encode_sensor_id "S", 100, ⟨1, 1⟩⟩
def recB : LogRecord := ⟨encode_sensor_id "S", 200, ⟨2, 1⟩⟩
def recC : LogRecord := ⟨encode_sensor_id "S", 300, ⟨3, 1⟩⟩

/-- Server that has logged three readings `A, B, C` (in order) for `S`. -/
def stABC : ServerState := ⟨[("S", true)], [("S", [recA, recB, recC])]⟩

def recS : LogRecord := ⟨encode_sensor_id "s", 0, ⟨1, 1⟩⟩

/-- Server that has logged one reading for sensor `s`. -/
def stOne : ServerState := ⟨[("s", true)], [("s", [recS])]⟩

/-! ### Helper lemmas -/

/-- A message that starts with `GET|` does not start with `LOG|`. -/
lemma get_not_log (s : String) (h : strStarts s "GET|" = true) :
    strStarts s "LOG|" = false := by
  unfold strStarts at h ⊢
  rw [show ("GET|".data) = ['G', 'E', 'T', '|'] from rfl] at h
  rw [show ("LOG|".data) = ['L', 'O', 'G', '|'] from rfl]
  cases hd : s.data with
  | nil => rw [hd] at h; simp [List.isPrefixOf] at h
  | cons c t =>
    rw [hd] at h
    simp only [List.isPrefixOf, Bool.and_eq_true, beq_iff_eq] at h
    obtain ⟨rfl, -⟩ := h
    simp [List.isPrefixOf]

/-- Reduce `process_message` to the `GET` branch body. -/
lemma process_get_eq (env : Env) (st : ServerState) (msg id cntStr : String)
    (hpfx : strStarts msg "GET|" = true)
    (hsplit : split_message msg = ["GET", id, cntStr]) :
    process_message env st msg = getBranch st ["GET", id, cntStr] := by
  have hnl := get_not_log msg hpfx
  simp [process_message, hnl, hpfx, hsplit]

/-- Reduce `process_message` to the `LOG` branch body. -/
lemma process_log_eq (env : Env) (st : ServerState) (msg id tss vs : String)
    (hpfx : strStarts msg "LOG|" = true)
    (hsplit : split_message msg = ["LOG", id, tss, vs]) :
    process_message env st msg = logBranch env st ["LOG", id, tss, vs] := by
  simp [process_message, hpfx, hsplit]

/-- Looking up a freshly appended association finds it when the key was
previously absent. -/
lemma alookup_append_self {α : Type} (l : List (String × α)) (k : String) (v : α)
    (h : alookup l k = none) : alookup (l ++ [(k, v)]) k = some v := by
  induction l with
  | nil => simp [alookup]
  | cons p t ih =>
    obtain ⟨k1, v1⟩ := p
    by_cases hk : k1 = k
    · subst hk; simp [alookup] at h
    · simp [alookup, hk] at h ⊢
      exact ih h

/-- Collecting `l.get?` at indices `s, s+1, ..., s+k-1` is `take k` of
`drop s`. -/
lemma range_filterMap_get {α : Type} (l : List α) (s : Nat) :
    ∀ k, (List.range k).filterMap (fun i => l.get? (s + i)) = (l.drop s).take k := by
  intro k
  induction k with
  | zero => simp
  | succ k ih =>
    rw [List.range_succ, List.filterMap_append, ih, List.take_succ]
    congr 1
    rw [List.getElem?_drop]
    simp only [List.filterMap_cons, List.filterMap_nil, List.get?_eq_getElem?]
    cases h : l[s + k]? <;> simp [h]

/-- Evaluation of the tail read for a nonnegative requested count: it returns
the clamped count together with the last `min count total` records of the
file, in file order. -/
lemma tail_read_spec (file : List LogRecord) (c : Int) (hc : 0 ≤ c) :
    tail_read file c
      = (min c (file.length : Int),
         file.drop (file.length - (min c (file.length : Int)).toNat)) := by
  simp only [tail_read]
  have h48 : (48 : Int) ≠ 0 := by norm_num
  rw [Int.mul_tdiv_cancel _ h48]
  have hn0 : 0 ≤ min c (file.length : Int) := le_min hc (Int.ofNat_nonneg _)
  have hnl : min c (file.length : Int) ≤ (file.length : Int) := min_le_right _ _
  have htn : ((file.length : Int) - min c (file.length : Int)).toNat
      = file.length - (min c (file.length : Int)).toNat := by omega
  rw [htn, range_filterMap_get]
  congr 1
  apply List.take_of_length_le
  rw [List.length_drop]
  omega

/-- Evaluation of the tail read for a nonpositive requested count: the read
loop does not run and the count is echoed unclamped. -/
lemma tail_read_nonpos (file : List LogRecord) (c : Int) (hc : c ≤ 0) :
    tail_read file c = (c, []) := by
  simp only [tail_read]
  have h48 : (48 : Int) ≠ 0 := by norm_num
  rw [Int.mul_tdiv_cancel _ h48]
  have hmin : min c (file.length : Int) = c :=
    min_eq_left (le_trans hc (Int.ofNat_nonneg _))
  rw [hmin, Int.toNat_of_nonpos hc]
  simp

/-- Record reads at lock depth 0 are annotated as unlocked. -/
lemma annotateLock_zero_reads (n : Nat) (t : List Step) :
    annotateLock 0 (List.replicate n Step.fileRecordRead ++ t)
      = List.replicate n (Step.fileRecordRead, false) ++ annotateLock 0 t := by
  induction n with
  | zero => simp
  | succ k ih => simp [List.replicate_succ, annotateLock, ih]

/-- Unlocked record reads all survive the guarded-access filter. -/
lemma filter_guard_reads (n : Nat) :
    ((List.replicate n (Step.fileRecordRead, false)).filter
      fun p => isGuarded p.1 && !p.2) = List.replicate n (Step.fileRecordRead, false) := by
  induction n with
  | zero => rfl
  | succ k ih => simp [List.replicate_succ, List.filter_cons, ih, isGuarded]

/-! ### Claim C1 -/

/-- C1, refuted at a concrete input: processing `LOG|s|badtime|1.5` on a
fresh server, whose timestamp field fails to parse, nevertheless appends a
record (with timestamp `-1`) to the log file of sensor `s` — file I/O does
occur, contrary to the claim that the reading is dropped before any file
I/O. -/
theorem C1_counterexample :
    (process_message envAll emptyState "LOG|s|badtime|1.5").1.files
        = [("s", [⟨encode_sensor_id "s", -1, ⟨3, 2⟩⟩])]
      ∧ (process_message envAll emptyState "LOG|s|badtime|1.5").1.files ≠ [] :=
  ⟨by decide, by decide⟩

/-- C1 as amended: for every `LOG` command whose timestamp field fails to
parse but whose value parses (on a sensor whose log is open), the reading is
NOT dropped: a complete record whose timestamp is `(time_t)(-1)` is appended
to the log file; no response is written and the handler proceeds to the next
line without crashing the connection. -/
theorem C1_theorem (env : Env) (st : ServerState) (msg id tss vs : String) (q : Q)
    (hpfx : strStarts msg "LOG|" = true)
    (hsplit : split_message msg = ["LOG", id, tss, vs])
    (hts : string_to_time_t tss = -1)
    (hv : stod vs = some q)
    (hreg : alookup st.registry id = some true) :
    process_message env st msg
      = ({ st with files := appendRecord st.files id ⟨encode_sensor_id id, -1, q⟩ }, []) := by
  rw [process_log_eq env st msg id tss vs hpfx hsplit]
  simp [logBranch, hts, hv, hreg]

/-- Witness for C1: the amended claim applied to `LOG|s|badtime|1.5` on a
server that already logs sensor `s`. -/
theorem C1_witness :
    process_message envAll stOne "LOG|s|badtime|1.5"
      = ({ stOne with
            files := appendRecord stOne.files "s" ⟨encode_sensor_id "s", -1, ⟨3, 2⟩⟩ }, []) :=
  C1_theorem envAll stOne "LOG|s|badtime|1.5" "s" "badtime" "1.5" ⟨3, 2⟩
    rfl rfl rfl rfl rfl

/-! ### Claim C2 -/

/-- C2, refuted at the specified scenario: after the wire lines
`LOG|temp1|2024-01-15T10:00:00|23.5` and `GET|temp1|1`, the response is NOT
`1;2024-01-15T10:00:00|23.500000` followed by CRLF. -/
theorem C2_counterexample :
    (handle_wire_line envAll
        ((handle_wire_line envAll emptyState "LOG|temp1|2024-01-15T10:00:00|23.5").1)
        "GET|temp1|1").2
      ≠ ["1;2024-01-15T10:00:00|23.500000\r\n"] := by decide

/-- C2 as amended: values in `GET` responses are rendered with the default
`ostream` format, 6 significant digits with trailing zeros removed — NOT a
form that round-trips the 17 significant digits of a 64-bit float; the
scenario `LOG|temp1|2024-01-15T10:00:00|23.5` then `GET|temp1|1` yields the
response line `1;2024-01-15T10:00:00|23.5` followed by CRLF. -/
theorem C2_theorem :
    (handle_wire_line envAll
        ((handle_wire_line envAll emptyState "LOG|temp1|2024-01-15T10:00:00|23.5").1)
        "GET|temp1|1").2
      = ["1;2024-01-15T10:00:00|23.5\r\n"] := by decide

/-! ### Claim C3 -/

/-- C3: of the three client-visible error responses, only
`ERROR|INVALID_SENSOR_ID` is followed by a genuine CRLF terminator; the
`ERROR|INVALID_NUM_RECORDS` and `ERROR|CANNOT_READ_LOG_FILE` responses are
followed by the four literal characters backslash-`r`-backslash-`n` (the
source string literals at lines 113/120/137 contain doubled backslashes), so
the claim fails for them — a bug in the code, not in the spec. -/
theorem C3_theorem :
    (process_message envAll emptyState "GET|x|abc").2
        = ["ERROR|INVALID_NUM_RECORDS\\r\\n"]
      ∧ (process_message envAll ⟨[("s", false)], []⟩ "GET|s|1").2
        = ["ERROR|CANNOT_READ_LOG_FILE\\r\\n"]
      ∧ (process_message envAll emptyState "GET|x|1").2
        = ["ERROR|INVALID_SENSOR_ID\r\n"]
      ∧ ("ERROR|INVALID_NUM_RECORDS\\r\\n" : String)
        ≠ "ERROR|INVALID_NUM_RECORDS" ++ "\r\n"
      ∧ ("ERROR|CANNOT_READ_LOG_FILE\\r\\n" : String)
        ≠ "ERROR|CANNOT_READ_LOG_FILE" ++ "\r\n"
      ∧ ("ERROR|INVALID_SENSOR_ID\r\n" : String)
        = "ERROR|INVALID_SENSOR_ID" ++ "\r\n" :=
  ⟨by decide, by decide, by decide, by decide, by decide, by decide⟩

/-! ### Claim C4 -/

/-- C4: for a 40-byte identifier (40 times `a`), the encoded 32-byte field is
the first 31 bytes followed by the byte 48 (the character `0`), NOT by a
terminating zero byte — the statement at line 64 assigns the multicharacter
literal backslash-zero, which truncates to the byte `0x30`; consequently the
decoded identifier is the first 31 bytes plus a spurious `0`, not the first
31 bytes.  The code contradicts its own comment, so this is a code bug. -/
theorem C4_theorem :
    encode_sensor_id (String.mk (List.replicate 40 'a'))
        = List.replicate 31 97 ++ [48]
      ∧ (encode_sensor_id (String.mk (List.replicate 40 'a'))).getD 31 0 = 48
      ∧ decode_sensor_id (encode_sensor_id (String.mk (List.replicate 40 'a')))
        ≠ List.replicate 31 97 :=
  ⟨by decide, by decide, by decide⟩

/-! ### Claim C5 -/

/-- C5, refuted at a concrete input: on a sensor whose log holds one record,
`GET|s|-5` answers `-5` followed by the terminator, not the digit `0` — the
unclamped negative count is echoed. -/
theorem C5_counterexample :
    (process_message envAll stOne "GET|s|-5").2 = ["-5\r\n"]
      ∧ (process_message envAll stOne "GET|s|-5").2 ≠ ["0\r\n"] :=
  ⟨by decide, by decide⟩

/-- C5 as amended: for every `GET` on a sensor whose log exists, a
nonpositive count yields a non-error response with no record segments whose
leading number is the count itself (so exactly `0` for a zero count, but the
negative number itself, e.g. `-5`, for a negative count). -/
theorem C5_theorem (env : Env) (st : ServerState) (msg id cntStr : String)
    (c : Int) (file : List LogRecord)
    (hpfx : strStarts msg "GET|" = true)
    (hsplit : split_message msg = ["GET", id, cntStr])
    (hc : stoi cntStr = some c) (hcle : c ≤ 0)
    (hreg : (alookup st.registry id).isSome = true)
    (hfile : alookup st.files id = some file) :
    process_message env st msg = (st, [get_response c []]) := by
  rw [process_get_eq env st msg id cntStr hpfx hsplit]
  simp [getBranch, hc, hreg, hfile, tail_read_nonpos file c hcle]

/-- Witness for C5: `GET|s|0` on a one-record log answers exactly `0` and
the CRLF terminator. -/
theorem C5_witness :
    process_message envAll stOne "GET|s|0" = (stOne, ["0\r\n"]) := by
  rw [C5_theorem envAll stOne "GET|s|0" "s" "0" 0 [recS] rfl rfl rfl
    (by decide) rfl rfl]
  decide

/-! ### Claim C6 -/

/-- C6: for every `GET` with nonnegative count on an existing sensor log,
with `n = min(count, total_records)`, the response is the rendering of
exactly the last `n` records of the file in ascending write order (the tail
window in file order), and a count at least the number of available records
clamps to the whole file; no error is produced and the state is unchanged. -/
theorem C6_theorem (env : Env) (st : ServerState) (msg id cntStr : String)
    (c : Int) (file : List LogRecord)
    (hpfx : strStarts msg "GET|" = true)
    (hsplit : split_message msg = ["GET", id, cntStr])
    (hc : stoi cntStr = some c) (hc0 : 0 ≤ c)
    (hreg : (alookup st.registry id).isSome = true)
    (hfile : alookup st.files id = some file) :
    process_message env st msg
        = (st, [get_response (min c (file.length : Int))
            (file.drop (file.length - (min c (file.length : Int)).toNat))])
      ∧ ((file.length : Int) ≤ c →
          file.drop (file.length - (min c (file.length : Int)).toNat) = file) := by
  constructor
  · rw [process_get_eq env st msg id cntStr hpfx hsplit]
    simp [getBranch, hc, hreg, hfile, tail_read_spec file c hc0]
  · intro hlen
    rw [min_eq_right hlen]
    simp

/-- Witness for C6: after appending `A, B, C` for sensor `S`, `GET|S|2`
returns exactly `[B, C]` in that order. -/
theorem C6_witness :
    (process_message envAll stABC "GET|S|2").2 = [get_response 2 [recB, recC]] := by
  rw [(C6_theorem envAll stABC "GET|S|2" "S" "2" 2 [recA, recB, recC]
    rfl rfl rfl (by decide) rfl rfl).1]
  decide

/-! ### Claim C7 -/

/-- C7: for every `GET` naming a sensor id with no registry entry (no log
ever created in this process), whatever the parsed count — including 0 —
the response is exactly `ERROR|INVALID_SENSOR_ID` with a CRLF terminator,
and the state is unchanged. -/
theorem C7_theorem (env : Env) (st : ServerState) (msg id cntStr : String) (c : Int)
    (hpfx : strStarts msg "GET|" = true)
    (hsplit : split_message msg = ["GET", id, cntStr])
    (hc : stoi cntStr = some c)
    (hreg : alookup st.registry id = none) :
    process_message env st msg = (st, ["ERROR|INVALID_SENSOR_ID\r\n"]) := by
  rw [process_get_eq env st msg id cntStr hpfx hsplit]
  simp [getBranch, hc, hreg]

/-- Witness for C7: `GET|unknown|0` on a fresh server — count 0 still yields
the invalid-sensor error. -/
theorem C7_witness :
    process_message envAll emptyState "GET|unknown|0"
      = (emptyState, ["ERROR|INVALID_SENSOR_ID\r\n"]) :=
  C7_theorem envAll emptyState "GET|unknown|0" "unknown" "0" 0 rfl rfl rfl rfl

/-! ### Claim C8 -/

/-- C8, refuted on the `GET` path: in the tail read of a single record, the
file open, the size computation, the seek and the record read all execute
after the `lock_guard` scope of lines 127–129 has released the mutex — the
set of guarded accesses performed without the lock is nonempty. -/
theorem C8_counterexample :
    unguarded_accesses (get_trace_existing 1)
        = [Step.fileOpenRead, Step.fileSizeQuery, Step.fileSeek, Step.fileRecordRead]
      ∧ unguarded_accesses (get_trace_existing 1) ≠ [] :=
  ⟨by decide, by decide⟩

/-- C8 as amended: registry lookups/inserts and file appends (the whole
`LOG` path) do run under the single global mutex, and the registry lookup of
the `GET` path does too; but every tail-read file access — open, size
computation, seek, and each of the `n` record reads — runs after the lock
has been released, so a reader's tail computation can race with a concurrent
appender's change of the file size. -/
theorem C8_theorem (n : Nat) :
    unguarded_accesses log_trace_new_sensor = []
      ∧ unguarded_accesses (get_trace_existing n)
          = [Step.fileOpenRead, Step.fileSizeQuery, Step.fileSeek]
            ++ List.replicate n Step.fileRecordRead := by
  refine ⟨by decide, ?_⟩
  simp only [unguarded_accesses, get_trace_existing, List.cons_append, List.nil_append]
  rw [show annotateLock 0 (Step.lockAcquire :: Step.registryAccess :: Step.lockRelease ::
        Step.fileOpenRead :: Step.fileSizeQuery :: Step.fileSeek ::
        (List.replicate n Step.fileRecordRead ++ [Step.socketWrite]))
      = (Step.lockAcquire, true) :: (Step.registryAccess, true) :: (Step.lockRelease, true) ::
        (Step.fileOpenRead, false) :: (Step.fileSizeQuery, false) :: (Step.fileSeek, false) ::
        annotateLock 0 (List.replicate n Step.fileRecordRead ++ [Step.socketWrite]) from rfl]
  rw [annotateLock_zero_reads]
  simp only [List.filter_cons, List.filter_append, List.map_cons, List.map_append,
    filter_guard_reads, List.map_replicate]
  simp [isGuarded, annotateLock]

/-! ### Claim C9 -/

/-- C9: every line with the `LOG|` prefix and a field count other than 4,
every line with the `GET|` prefix and a field count other than 3, and every
line with any other prefix, produces no response and leaves the whole server
state (registry and files) unchanged. -/
theorem C9_theorem (env : Env) (st : ServerState) (msg : String)
    (h : (strStarts msg "LOG|" = true ∧ (split_message msg).length ≠ 4)
       ∨ (strStarts msg "GET|" = true ∧ (split_message msg).length ≠ 3)
       ∨ (strStarts msg "LOG|" = false ∧ strStarts msg "GET|" = false)) :
    process_message env st msg = (st, []) := by
  rcases h with ⟨h1, h2⟩ | ⟨h1, h2⟩ | ⟨h1, h2⟩
  · simp [process_message, h1, h2]
  · have hnl := get_not_log msg h1
    simp [process_message, hnl, h1, h2]
  · simp [process_message, h1, h2]

/-- Witness for C9: `LOG|onlytwo` (two fields) produces no response and
creates no file on a fresh server. -/
theorem C9_witness :
    process_message envAll emptyState "LOG|onlytwo" = (emptyState, []) :=
  C9_theorem envAll emptyState "LOG|onlytwo" (Or.inl ⟨rfl, by decide⟩)

/-! ### Claim C10 -/

/-- C10: a `LOG` whose value parses but whose log file cannot be opened
still creates a registry entry for the sensor id (mapped to a closed
stream), with the reading silently dropped; a subsequent `GET` for that id
then answers the `CANNOT_READ_LOG_FILE` error (with the literal
backslash-`r`-backslash-`n` tail the source gives it), which differs from
the `INVALID_SENSOR_ID` response. -/
theorem C10_theorem (env : Env) (st : ServerState)
    (msgL msgG id tss vs cntStr : String) (q : Q) (c : Int)
    (hpfxL : strStarts msgL "LOG|" = true)
    (hsplitL : split_message msgL = ["LOG", id, tss, vs])
    (hv : stod vs = some q)
    (hreg : alookup st.registry id = none)
    (hopen : env.canOpenWrite (id ++ ".log") = false)
    (hfile : alookup st.files id = none)
    (hpfxG : strStarts msgG "GET|" = true)
    (hsplitG : split_message msgG = ["GET", id, cntStr])
    (hc : stoi cntStr = some c) :
    process_message env st msgL = (⟨st.registry ++ [(id, false)], st.files⟩, [])
      ∧ (process_message env ⟨st.registry ++ [(id, false)], st.files⟩ msgG).2
          = ["ERROR|CANNOT_READ_LOG_FILE\\r\\n"]
      ∧ ("ERROR|CANNOT_READ_LOG_FILE\\r\\n" : String)
          ≠ "ERROR|INVALID_SENSOR_ID\r\n" := by
  have hreg2 : alookup (st.registry ++ [(id, false)]) id = some false :=
    alookup_append_self st.registry id false hreg
  refine ⟨?_, ?_, by decide⟩
  · rw [process_log_eq env st msgL id tss vs hpfxL hsplitL]
    simp [logBranch, hv, hreg, hopen]
  · rw [process_get_eq env ⟨st.registry ++ [(id, false)], st.files⟩ msgG id cntStr
      hpfxG hsplitG]
    simp [getBranch, hc, hreg2, hfile]

/-- Witness for C10: with every open failing, `LOG|s|2024-01-15T10:00:00|1.5`
creates the registry entry and no file; the following `GET|s|1` answers the
cannot-read-log-file error. -/
theorem C10_witness :
    process_message envNone emptyState "LOG|s|2024-01-15T10:00:00|1.5"
        = (⟨[("s", false)], []⟩, [])
      ∧ (process_message envNone ⟨[("s", false)], []⟩ "GET|s|1").2
          = ["ERROR|CANNOT_READ_LOG_FILE\\r\\n"] := by
  have h := C10_theorem envNone emptyState "LOG|s|2024-01-15T10:00:00|1.5" "GET|s|1"
    "s" "2024-01-15T10:00:00" "1.5" "1" ⟨3, 2⟩ 1 rfl rfl rfl rfl rfl rfl rfl rfl rfl
  exact ⟨h.1, h.2.1⟩

end DAS
